import Mathlib

/-!
Verification of the cppcheck batch-analysis execution driver
(cli/cppcheckexecutor.cpp) against its natural-language specification.

The driver is shallowly embedded: the diagnostic sink (reportErr / reportOut /
reportInfo / reportStatus), the dispatcher (check_internal), the file-set
filtering phase of parseFromArgs, and the signal handler are translated into
executable Lean functions.  External collaborators (the analysis engine,
CmdLineParser, FileLister, PathMatch, ErrorLogger rendering) appear as
parameters or as definitions explicitly marked as modelled from the spec.
-/

namespace Cppcheck

/-! ## Diagnostic sink (cppcheckexecutor.cpp lines 688-729)

The executor writes diagnostics to std::cerr and status output to std::cout.
A sink state records the `_errorList` dedup set (a set of rendered strings,
modelled as a duplicate-free list with the newest entry first) and the ordered
stream of writes actually performed, tagged by channel. -/

inductive Channel
  | out
  | err
deriving DecidableEq, Repr

structure SinkState where
  errorList : List String
  stream : List (Channel × String)
deriving DecidableEq, Repr

def initSink : SinkState := { errorList := [], stream := [] }

/-- reportErr(const std::string&), lines 688-696: alert only about unique
errors — a message already in `_errorList` is dropped, otherwise it is
inserted and written to std::cerr. -/
def reportErrStr (s : SinkState) (errmsg : String) : SinkState :=
  if errmsg ∈ s.errorList then s
  else { errorList := errmsg :: s.errorList,
         stream := s.stream ++ [(Channel.err, errmsg)] }

/-- reportOut, lines 698-701: unconditional write to std::cout. -/
def reportOutStr (s : SinkState) (outmsg : String) : SinkState :=
  { s with stream := s.stream ++ [(Channel.out, outmsg)] }

/-- The emission language: what the driver asks the sink to do.  `err` is a
reportErr call, `out` a reportOut call, `info` a reportInfo call (whose body,
lines 726-729, just forwards the message to reportErr). -/
inductive SinkOp
  | err (m : String)
  | info (m : String)
  | out (m : String)
deriving DecidableEq, Repr

def runOp (s : SinkState) (op : SinkOp) : SinkState :=
  match op with
  | SinkOp.err m => reportErrStr s m
  | SinkOp.info m => reportErrStr s m
  | SinkOp.out m => reportOutStr s m

def runOps (s : SinkState) (ops : List SinkOp) : SinkState :=
  ops.foldl runOp s

/-- The sequence of strings written to the error channel (std::cerr). -/
def errStream (s : SinkState) : List String :=
  s.stream.filterMap (fun e => if e.1 = Channel.err then some e.2 else none)

/-- The sequence of strings written to the status channel (std::cout). -/
def outStream (s : SinkState) : List String :=
  s.stream.filterMap (fun e => if e.1 = Channel.out then some e.2 else none)

/-- The strings an operation list sends through reportErr (err and info ops). -/
def errStringsOf (ops : List SinkOp) : List String :=
  ops.filterMap (fun op =>
    match op with
    | SinkOp.err m => some m
    | SinkOp.info m => some m
    | SinkOp.out _ => none)

/-! ## Data model: files, settings, collaborators -/

/-- One entry of the FileSet: `_files` maps a path to its size in bytes. The
std::map's iteration order is represented by the order of this list; keys are
unique in an actual run. -/
structure FileEntry where
  path : String
  size : Nat
deriving DecidableEq, Repr

/-- The Settings fields check_internal and the filtering code read (the
Settings class itself is an external collaborator). -/
structure Settings where
  jobs : Nat
  xml : Bool
  xmlVersion : Nat
  errorsOnly : Bool
  exitCode : Nat
  posixStandards : Bool
  infoEnabled : Bool
  checkConfiguration : Bool
  missingIncludeEnabled : Bool
deriving DecidableEq, Repr

/-- The markup-classification queries of settings.library used by the
sequential dispatch loops (the Library class is an external collaborator). -/
structure Library where
  markupFile : String → Bool
  processMarkupAfterCode : String → Bool

/-- Results and emissions of the external collaborators check_internal calls
into: configuration loading, the analysis engine (cppcheck.check,
cppcheck.checkFunctionUsage, tooManyConfigsError), the unmatched-suppression
report, the preprocessor's missing-include flags, and the thread executor. -/
structure Collab where
  stdCfgOk : Bool
  posixCfgOk : Bool
  checkDefects : String → Nat
  checkErrs : String → List String
  functionUsageErrs : List String
  unmatchedSuppMsgs : List String
  tooManyConfigsMsgs : List String
  missingIncludeFlag : Bool
  threadEnabled : Bool
  threadResult : Nat
  threadErrs : List String

/-- Observable dispatcher actions besides sink emissions: an engine check of
one file, the whole-session post-pass, or a delegation to the thread
executor. -/
inductive Event
  | checkFile (path : String)
  | functionUsage
  | threadRun
deriving DecidableEq, Repr

/-! ## reportStatus (lines 731-741) -/

/-- Division that only happens when the divisor is non-zero; used to express
that reportStatus's percentage computation never divides by zero. -/
def checkedDiv (a b : Nat) : Option Nat :=
  if b = 0 then none else some (a / b)

/-- The percentage of line 737: `sizetotal > 0 ? sizedone/sizetotal*100 : 0`.
The C++ long-double division followed by truncation to long is modelled as
exact Nat floor division. -/
def statusPercent (sizedone sizetotal : Nat) : Option Nat :=
  if 0 < sizetotal then checkedDiv (sizedone * 100) sizetotal else some 0

/-- The rendered status line of lines 734-738. -/
def statusLine (fileindex filecount sizedone sizetotal : Nat) : String :=
  toString fileindex ++ "/" ++ toString filecount ++ " files checked " ++
    toString ((statusPercent sizedone sizetotal).getD 0) ++ "% done"

/-- reportStatus, lines 731-741: a std::cout line, only when more than one
file is being checked. -/
def reportStatus (fileindex filecount sizedone sizetotal : Nat) : List SinkOp :=
  if 1 < filecount then
    [SinkOp.out (statusLine fileindex filecount sizedone sizetotal)]
  else []

/-! ## check_internal (lines 578-686) -/

/-- Loop state of the sequential dispatch: returnValue, processedsize, the
counter c, plus the emissions and engine calls made so far. -/
structure PassAcc where
  returnValue : Nat
  processedsize : Nat
  c : Nat
  ops : List SinkOp
  events : List Event

/-- The shared body of the two sequential loops (lines 626-630 and 638-642):
check the file, accumulate its defect count and size, and report status
unless --quiet. Diagnostics the engine emits during the check go through
reportErr. -/
def checkOneFile (st : Settings) (co : Collab) (filecount totalfilesize : Nat)
    (acc : PassAcc) (f : FileEntry) : PassAcc :=
  let returnValue := acc.returnValue + co.checkDefects f.path
  let processedsize := acc.processedsize + f.size
  let statusOps :=
    if !st.errorsOnly then reportStatus (acc.c + 1) filecount processedsize totalfilesize
    else []
  { returnValue := returnValue
    processedsize := processedsize
    c := acc.c + 1
    ops := acc.ops ++ (co.checkErrs f.path).map SinkOp.err ++ statusOps
    events := acc.events ++ [Event.checkFile f.path] }

/-- One loop over the whole FileSet, processing exactly the entries that
satisfy `cond` (each loop of lines 623-632 / 636-644 iterates all of _files
and guards its body with a condition). -/
def runPass (st : Settings) (co : Collab) (cond : FileEntry → Bool)
    (filecount totalfilesize : Nat) (files : List FileEntry) (acc : PassAcc) : PassAcc :=
  files.foldl (fun a f => if cond f then checkOneFile st co filecount totalfilesize a f else a) acc

/-- Condition of the first sequential loop, lines 624-625:
`!markupFile(path) || !processMarkupAfterCode(path)`. -/
def firstPassCond (lib : Library) (f : FileEntry) : Bool :=
  !(lib.markupFile f.path) || !(lib.processMarkupAfterCode f.path)

/-- Condition of the second sequential loop, line 637:
`markupFile(path) && processMarkupAfterCode(path)`. -/
def secondPassCond (lib : Library) (f : FileEntry) : Bool :=
  lib.markupFile f.path && lib.processMarkupAfterCode f.path

def noThreadMsg : String := "No thread support yet implemented for this platform."

structure DispatchResult where
  returnValue : Nat
  ops : List SinkOp
  events : List Event

/-- The dispatch of lines 613-653: sequential two-pass loop plus
checkFunctionUsage when _jobs == 1; the degraded-mode std::cout message when
parallel execution is requested but ThreadExecutor is not enabled; otherwise
delegation to the thread executor. -/
def dispatch (st : Settings) (lib : Library) (co : Collab)
    (files : List FileEntry) : DispatchResult :=
  if st.jobs = 1 then
    let totalfilesize := files.foldl (fun a f => a + f.size) 0
    let a1 := runPass st co (firstPassCond lib) files.length totalfilesize files
      { returnValue := 0, processedsize := 0, c := 0, ops := [], events := [] }
    let a2 := runPass st co (secondPassCond lib) files.length totalfilesize files a1
    { returnValue := a2.returnValue
      ops := a2.ops ++ co.functionUsageErrs.map SinkOp.err
      events := a2.events ++ [Event.functionUsage] }
  else if !co.threadEnabled then
    { returnValue := 0, ops := [SinkOp.out noThreadMsg], events := [] }
  else
    { returnValue := co.threadResult
      ops := co.threadErrs.map SinkOp.err
      events := [Event.threadRun] }

/-- The core of the failedToLoadCfg message of lines 588-600 (the details
part depends on the installation path and is omitted). -/
def failedToLoadCfgMsg (stdOk : Bool) : String :=
  "Failed to load " ++ (if !stdOk then "std.cfg" else "posix.cfg") ++
    ". Your Cppcheck installation is broken, please re-install."

/-- Modelled from the spec: ErrorLogger::ErrorMessage::getXMLHeader
(errorlogger.cpp is not part of the visible source) — the versioned header
string bracketing structured-mode output. -/
def getXMLHeader (version : Nat) : String :=
  "<?xml version=\"1.0\"?>\n<results version=\"" ++ toString version ++ "\">"

/-- Modelled from the spec: ErrorLogger::ErrorMessage::getXMLFooter — the
closing footer of structured-mode output. -/
def getXMLFooter (_version : Nat) : String := "</results>"

/-- The rendered missing-include information message of lines 662-672
(abbreviated to its message id). -/
def missingIncludeMsgText : String :=
  "Cppcheck cannot find all the include files (use --check-config for details)"

/-- Lines 582-586: std.cfg must load, and posix.cfg must load when the posix
standard is enabled. -/
def cfgLoadOk (st : Settings) (co : Collab) : Bool :=
  co.stdCfgOk && (!st.posixStandards || co.posixCfgOk)

/-- Everything check_internal emits between the optional XML header and the
optional XML footer: the dispatch output (lines 613-653), the
unmatched-suppression report (lines 655-656), and the tooManyConfigs /
missing-include reports (lines 658-675, the latter through reportInfo). -/
def middleOps (st : Settings) (lib : Library) (co : Collab)
    (files : List FileEntry) : List SinkOp :=
  (dispatch st lib co files).ops
    ++ (if st.infoEnabled || st.checkConfiguration then
          co.unmatchedSuppMsgs.map SinkOp.err
        else [])
    ++ (if !st.checkConfiguration then
          co.tooManyConfigsMsgs.map SinkOp.err
            ++ (if st.missingIncludeEnabled && co.missingIncludeFlag then
                  [SinkOp.info missingIncludeMsgText]
                else [])
        else [])

def EXIT_FAILURE : Nat := 1

structure CheckResult where
  cfgOk : Bool
  returnValue : Nat
  retcode : Nat
  ops : List SinkOp
  events : List Event

/-- check_internal, lines 578-686: load the baseline configuration (failure
reports and returns EXIT_FAILURE), emit the XML header when --xml, dispatch,
emit the post-run reports, emit the XML footer when --xml, and return the
configured exit code exactly when returnValue is non-zero. -/
def check_internal (st : Settings) (lib : Library) (co : Collab)
    (files : List FileEntry) : CheckResult :=
  if cfgLoadOk st co then
    { cfgOk := true
      returnValue := (dispatch st lib co files).returnValue
      retcode := if (dispatch st lib co files).returnValue ≠ 0 then st.exitCode else 0
      ops :=
        (if st.xml then [SinkOp.err (getXMLHeader st.xmlVersion)] else [])
          ++ middleOps st lib co files
          ++ (if st.xml then [SinkOp.err (getXMLFooter st.xmlVersion)] else [])
      events := (dispatch st lib co files).events }
  else
    { cfgOk := false
      returnValue := 0
      retcode := EXIT_FAILURE
      ops := [SinkOp.err (failedToLoadCfgMsg co.stdCfgOk)]
      events := [] }

/-- The paths the dispatcher actually handed to cppcheck.check, in order. -/
def checkedPaths (events : List Event) : List String :=
  events.filterMap (fun e =>
    match e with
    | Event.checkFile p => some p
    | _ => none)

/-! ## parseFromArgs: include-path / ignored-path filtering (lines 89-160) -/

/-- Modelled from the spec: Path::getFilenameExtension (path.cpp is an
external collaborator) — the trailing extension of a filename including the
dot, or the empty string when the name has no dot. -/
def getFilenameExtension (p : String) : String :=
  let rcs := p.data.reverse
  if rcs.any (fun c => c = '.') then
    String.mk ('.' :: (rcs.takeWhile (fun c => c ≠ '.')).reverse)
  else ""

/-- The header test of line 125: extension == ".h" || extension == ".hpp". -/
def isHeaderExtension (p : String) : Bool :=
  getFilenameExtension p == ".h" || getFilenameExtension p == ".hpp"

def strLower (s : String) : String := String.mk (s.data.map Char.toLower)

/-- Modelled from the spec: the PathMatch collaborator ("does this path match
any exclusion rule", pathmatch.cpp is not part of the visible source).  A
rule naming a concrete path matches exactly that path, case-insensitively
when caseSensitive is false. -/
def pathMatchAny (patterns : List String) (caseSensitive : Bool) (path : String) : Bool :=
  patterns.any (fun pat =>
    if caseSensitive then pat == path else strLower pat == strLower path)

/-- The erase loop of lines 123-130, which removes header-extension entries —
run on the local copy `ignored` of parser.GetIgnoredPaths(). -/
def filterIgnoredHeaders (ignored : List String) : List String :=
  ignored.filter (fun i => !(isHeaderExtension i))

def headerWarning1 : String :=
  "cppcheck: filename exclusion does not apply to header (.h and .hpp) files."
def headerWarning2 : String :=
  "cppcheck: Please use --suppress for ignoring results from the header files."
def noPathsMsg : String :=
  "cppcheck: error: could not find or open any of the paths given."
def allIgnoredMsg : String :=
  "cppcheck: error: no files to check - all paths ignored."

structure FilterResult where
  files : List FileEntry
  warned : Bool
  coutLines : List String
  success : Bool
deriving DecidableEq, Repr

/-- The ignored-path handling of parseFromArgs, lines 117-159: when the
expanded FileSet is non-empty, erase header-extension entries from the local
copy of the ignored list (filterIgnoredHeaders) and warn once if any were
erased — but the PathMatch matcher of line 142 is then constructed from the
unmodified parser.GetIgnoredPaths(), so the exclusion filter of lines 143-148
uses the original, unstripped rule list. -/
def parseFromArgsFilter (files : List FileEntry) (ignoredPaths : List String)
    (caseSensitive : Bool) : FilterResult :=
  if files.isEmpty then
    { files := [], warned := false, coutLines := [noPathsMsg], success := false }
  else
    let warn := ignoredPaths.any isHeaderExtension
    let warnLines := if warn then [headerWarning1, headerWarning2] else []
    let remaining := files.filter (fun f => !(pathMatchAny ignoredPaths caseSensitive f.path))
    if remaining.isEmpty then
      { files := remaining, warned := warn,
        coutLines := warnLines ++ [allIgnoredMsg], success := false }
    else
      { files := remaining, warned := warn, coutLines := warnLines, success := true }

/-! ## Fault interception (lines 186-422) -/

/-- The preprocessor symbol tested by print_stacktrace's body guard at line
240.  The build defines USE_UNIX_SIGNAL_HANDLING (line 36); nothing in the
translation unit or the build ever defines USE_UNIX_SIGNAL_SUPPORT, so the
guard is statically false and the body is preprocessed away. -/
def USE_UNIX_SIGNAL_SUPPORT : Bool := false

/-- The character list after the first occurrence of `c` (strchr followed by
one step), none when `c` does not occur. -/
def afterChar (c : Char) (s : List Char) : Option (List Char) :=
  match s.dropWhile (fun x => x ≠ c) with
  | [] => none
  | _ :: rest => some rest

/-- Lines 250-260: the mangled name between the first opening parenthesis and
the following plus sign, provided the plus exists and the name is
non-empty. -/
def mangledPart (symbol : String) : Option String :=
  match afterChar '(' symbol.data with
  | none => none
  | some rest =>
      if rest.any (fun x => x = '+') then
        let m := rest.takeWhile (fun x => x ≠ '+')
        if m.isEmpty then none else some (String.mk m)
      else none

/-- Lines 251-254: the hexadecimal address text between "[0x" and "]". -/
def addressPart (symbol : String) : String :=
  match afterChar '[' symbol.data with
  | none => ""
  | some rest => String.mk ((rest.drop 2).takeWhile (fun x => x ≠ ']'))

/-- Line 278-280 fallback: the raw symbol text before the first opening
parenthesis. -/
def rawNamePart (symbol : String) : String :=
  String.mk (symbol.data.takeWhile (fun x => x ≠ '('))

/-- One line of the frame loop, lines 267-281: demangle the mangled part when
demangling is requested and succeeds, else fall back to the raw symbol text;
zero-padding of the address column is collapsed. -/
def stackFrameLine (demangle : String → Option String) (demangling : Bool)
    (ordinal : Nat) (symbol : String) : String :=
  let realname := if demangling then (mangledPart symbol).bind demangle else none
  match realname with
  | some name =>
      "#" ++ toString ordinal ++ " 0x" ++ addressPart symbol ++ " in " ++ name
  | none =>
      "#" ++ toString ordinal ++ " 0x" ++ addressPart symbol ++ " in " ++ rawNamePart symbol

/-- The guarded body of print_stacktrace, lines 241-286: capture at most 32
return addresses (the backtrace array), obtain their symbol strings
(backtrace_symbols, which may fail), skip the first 3 frames (offset = 3,
the interception machinery itself), and format each remaining frame. -/
def print_stacktrace_body (demangle : String → Option String) (demangling : Bool)
    (symbolstrings : Option (List String)) : List String :=
  match symbolstrings with
  | some syms =>
      "Callstack:" ::
        (((syms.take 32).drop 3).enum.map
          (fun p => stackFrameLine demangle demangling p.1 p.2))
  | none => ["Callstack could not be obtained"]

/-- print_stacktrace as compiled, lines 238-288: the whole body sits inside
`#if defined(USE_UNIX_SIGNAL_SUPPORT)`, a symbol that is never defined, so
the compiled function emits nothing. -/
def print_stacktrace (demangle : String → Option String) (demangling : Bool)
    (symbolstrings : Option (List String)) : List String :=
  if USE_UNIX_SIGNAL_SUPPORT then print_stacktrace_body demangle demangling symbolstrings
  else []

/-- Where fault reports go, line 298: stderr exactly when the process-wide
exception-output string equals "stderr", stdout otherwise. -/
inductive FaultSink
  | toStdout
  | toStderr
deriving DecidableEq, Repr

def faultReportSink (exceptionOutput : String) : FaultSink :=
  if exceptionOutput == "stderr" then FaultSink.toStderr else FaultSink.toStdout

/-- The static member `CppCheckExecutor::exceptionOutput` (line 764) is a
default-constructed std::string: the never-set state is the empty string. -/
def exceptionOutputDefault : String := ""

/-- The signals the handler is installed for (lines 197-205). -/
inductive Signo
  | sigbus
  | sigfpe
  | sigill
  | sigint
  | sigsegv
deriving DecidableEq, Repr

/-- signal_name, lines 220-227. -/
def signal_name (signo : Signo) : String :=
  match signo with
  | Signo.sigbus => "SIGBUS"
  | Signo.sigfpe => "SIGFPE"
  | Signo.sigill => "SIGILL"
  | Signo.sigint => "SIGINT"
  | Signo.sigsegv => "SIGSEGV"

/-- CppcheckSignalHandler, lines 293-422: pick the output file, print the
fixed prefix, the signal name, strsignal's text and the si_code/address
detail chosen by the switch (passed in as `detail`; terse "." for SIGINT),
and — unless the signal is SIGINT, which clears bPrintCallstack at line 396 —
the call trace followed by the report plea.  The trailing abort() is outside
the model. -/
def CppcheckSignalHandler (exceptionOutput : String) (signo : Signo)
    (sigtext detail : String) (demangle : String → Option String)
    (symbolstrings : Option (List String)) : FaultSink × List String :=
  let f := faultReportSink exceptionOutput
  let bPrintCallstack :=
    match signo with
    | Signo.sigint => false
    | _ => true
  let intro :=
    ["Internal error: cppcheck received signal ", signal_name signo, ", ", sigtext, detail]
  (f, intro ++
    (if bPrintCallstack then
      print_stacktrace demangle true symbolstrings ++
        ["Please report this to the cppcheck developers!"]
    else []))

/-! ## Auxiliary definitions for the verification -/

/-- Well-formedness of a sink state: the dedup set `_errorList` holds exactly
the strings already written to the error channel (newest first) and is
duplicate-free. -/
def SinkWF (s : SinkState) : Prop :=
  s.errorList = (errStream s).reverse ∧ s.errorList.Nodup

/-- A concrete Library collaborator for witness instances: no markup files. -/
def demoLib : Library :=
  { markupFile := fun _ => false, processMarkupAfterCode := fun _ => false }

/-- A concrete collaborator bundle for witness instances: configuration loads
succeed, the engine finds no defects and emits nothing, no thread support. -/
def demoCollab : Collab :=
  { stdCfgOk := true, posixCfgOk := true, checkDefects := fun _ => 0,
    checkErrs := fun _ => [], functionUsageErrs := [], unmatchedSuppMsgs := [],
    tooManyConfigsMsgs := [], missingIncludeFlag := false, threadEnabled := false,
    threadResult := 0, threadErrs := [] }

/-- Concrete sequential-mode plain-output settings for witness instances. -/
def demoSettings : Settings :=
  { jobs := 1, xml := false, xmlVersion := 1, errorsOnly := true, exitCode := 1,
    posixStandards := false, infoEnabled := false, checkConfiguration := false,
    missingIncludeEnabled := false }

/-- Concrete sequential-mode XML settings for witness instances. -/
def xmlSettings : Settings :=
  { jobs := 1, xml := true, xmlVersion := 2, errorsOnly := true, exitCode := 1,
    posixStandards := false, infoEnabled := false, checkConfiguration := false,
    missingIncludeEnabled := false }

/-- Concrete parallel-mode settings (worker count 4) for witness instances. -/
def parSettings : Settings :=
  { jobs := 4, xml := false, xmlVersion := 1, errorsOnly := true, exitCode := 1,
    posixStandards := false, infoEnabled := false, checkConfiguration := false,
    missingIncludeEnabled := false }

/-! # Theorems

First the generic sink lemmas, then one theorem per claim (with witnesses for
the theorems that carry hypotheses). -/

theorem runOps_cons (s : SinkState) (op : SinkOp) (rest : List SinkOp) :
    runOps s (op :: rest) = runOps (runOp s op) rest := rfl

theorem runOps_append (s : SinkState) (a b : List SinkOp) :
    runOps s (a ++ b) = runOps (runOps s a) b := by
  simp [runOps, List.foldl_append]

theorem errStream_reportOutStr (s : SinkState) (m : String) :
    errStream (reportOutStr s m) = errStream s := by
  simp [errStream, reportOutStr, List.filterMap_append]

theorem reportErrStr_mem (s : SinkState) (m : String) (h : m ∈ s.errorList) :
    reportErrStr s m = s := by
  simp [reportErrStr, h]

theorem reportErrStr_not_mem (s : SinkState) (m : String) (h : m ∉ s.errorList) :
    (reportErrStr s m).errorList = m :: s.errorList ∧
      errStream (reportErrStr s m) = errStream s ++ [m] := by
  constructor <;> simp [reportErrStr, h, errStream, List.filterMap_append]

theorem errStringsOf_cons_err (m : String) (rest : List SinkOp) :
    errStringsOf (SinkOp.err m :: rest) = m :: errStringsOf rest := rfl

theorem errStringsOf_cons_info (m : String) (rest : List SinkOp) :
    errStringsOf (SinkOp.info m :: rest) = m :: errStringsOf rest := rfl

theorem errStringsOf_cons_out (m : String) (rest : List SinkOp) :
    errStringsOf (SinkOp.out m :: rest) = errStringsOf rest := rfl

theorem sinkWF_reportErrStr (s : SinkState) (m : String) (h : SinkWF s) :
    SinkWF (reportErrStr s m) := by
  obtain ⟨h1, h2⟩ := h
  by_cases hm : m ∈ s.errorList
  · rw [reportErrStr_mem s m hm]
    exact ⟨h1, h2⟩
  · obtain ⟨he, hs⟩ := reportErrStr_not_mem s m hm
    refine ⟨?_, ?_⟩
    · rw [he, hs, List.reverse_append, h1]
      simp
    · rw [he]
      exact List.nodup_cons.mpr ⟨hm, h2⟩

theorem sinkWF_runOp (s : SinkState) (op : SinkOp) (h : SinkWF s) :
    SinkWF (runOp s op) := by
  cases op with
  | err m => exact sinkWF_reportErrStr s m h
  | info m => exact sinkWF_reportErrStr s m h
  | out m =>
    refine ⟨?_, ?_⟩
    · show (reportOutStr s m).errorList = (errStream (reportOutStr s m)).reverse
      rw [errStream_reportOutStr]
      simpa [reportOutStr] using h.1
    · simpa [runOp, reportOutStr] using h.2

theorem sinkWF_runOps (s : SinkState) (ops : List SinkOp) (h : SinkWF s) :
    SinkWF (runOps s ops) := by
  induction ops generalizing s with
  | nil => simpa [runOps] using h
  | cons op rest ih =>
    rw [runOps_cons]
    exact ih _ (sinkWF_runOp s op h)

theorem sinkWF_init : SinkWF initSink := by
  constructor <;> simp [initSink, errStream]

theorem errorList_subset_runOp (s : SinkState) (op : SinkOp) :
    s.errorList ⊆ (runOp s op).errorList := by
  cases op with
  | out m => simp [runOp, reportOutStr]
  | err m =>
    show s.errorList ⊆ (reportErrStr s m).errorList
    by_cases hm : m ∈ s.errorList
    · rw [reportErrStr_mem s m hm]
      exact List.Subset.refl s.errorList
    · rw [(reportErrStr_not_mem s m hm).1]
      exact List.subset_cons_self m s.errorList
  | info m =>
    show s.errorList ⊆ (reportErrStr s m).errorList
    by_cases hm : m ∈ s.errorList
    · rw [reportErrStr_mem s m hm]
      exact List.Subset.refl s.errorList
    · rw [(reportErrStr_not_mem s m hm).1]
      exact List.subset_cons_self m s.errorList

theorem errorList_subset_runOps (s : SinkState) (ops : List SinkOp) :
    s.errorList ⊆ (runOps s ops).errorList := by
  induction ops generalizing s with
  | nil => simp [runOps]
  | cons op rest ih =>
    rw [runOps_cons]
    intro x hx
    exact ih (runOp s op) (errorList_subset_runOp s op hx)

theorem mem_errorList_reportErrStr (s : SinkState) (m : String) :
    m ∈ (reportErrStr s m).errorList := by
  by_cases hm : m ∈ s.errorList
  · rw [reportErrStr_mem s m hm]
    exact hm
  · rw [(reportErrStr_not_mem s m hm).1]
    exact List.mem_cons_self m s.errorList

theorem errStrings_mem_errorList (ops : List SinkOp) (s : SinkState) (m : String)
    (h : m ∈ errStringsOf ops) : m ∈ (runOps s ops).errorList := by
  induction ops generalizing s with
  | nil => simp [errStringsOf] at h
  | cons op rest ih =>
    rw [runOps_cons]
    cases op with
    | err m' =>
      rw [errStringsOf_cons_err] at h
      rcases List.mem_cons.mp h with heq | htail
      · subst heq
        exact errorList_subset_runOps _ rest (mem_errorList_reportErrStr s m)
      · exact ih _ htail
    | info m' =>
      rw [errStringsOf_cons_info] at h
      rcases List.mem_cons.mp h with heq | htail
      · subst heq
        exact errorList_subset_runOps _ rest (mem_errorList_reportErrStr s m)
      · exact ih _ htail
    | out m' =>
      rw [errStringsOf_cons_out] at h
      exact ih _ h

theorem errStream_runOps_extend (ops : List SinkOp) (s : SinkState) :
    ∃ mid, errStream (runOps s ops) = errStream s ++ mid ∧
      ∀ m ∈ mid, m ∈ errStringsOf ops := by
  induction ops generalizing s with
  | nil => exact ⟨[], by simp [runOps], by simp⟩
  | cons op rest ih =>
    rw [runOps_cons]
    obtain ⟨mid, hmid, hsub⟩ := ih (runOp s op)
    cases op with
    | out m =>
      refine ⟨mid, ?_, ?_⟩
      · rw [hmid, show runOp s (SinkOp.out m) = reportOutStr s m from rfl,
          errStream_reportOutStr]
      · intro x hx
        rw [errStringsOf_cons_out]
        exact hsub x hx
    | err m =>
      by_cases hm : m ∈ s.errorList
      · refine ⟨mid, ?_, ?_⟩
        · rw [hmid, show runOp s (SinkOp.err m) = reportErrStr s m from rfl,
            reportErrStr_mem s m hm]
        · intro x hx
          rw [errStringsOf_cons_err]
          exact List.mem_cons_of_mem m (hsub x hx)
      · refine ⟨m :: mid, ?_, ?_⟩
        · rw [hmid, show runOp s (SinkOp.err m) = reportErrStr s m from rfl,
            (reportErrStr_not_mem s m hm).2]
          simp
        · intro x hx
          rw [errStringsOf_cons_err]
          rcases List.mem_cons.mp hx with heq | htail
          · exact heq ▸ List.mem_cons_self m _
          · exact List.mem_cons_of_mem m (hsub x htail)
    | info m =>
      by_cases hm : m ∈ s.errorList
      · refine ⟨mid, ?_, ?_⟩
        · rw [hmid, show runOp s (SinkOp.info m) = reportErrStr s m from rfl,
            reportErrStr_mem s m hm]
        · intro x hx
          rw [errStringsOf_cons_info]
          exact List.mem_cons_of_mem m (hsub x hx)
      · refine ⟨m :: mid, ?_, ?_⟩
        · rw [hmid, show runOp s (SinkOp.info m) = reportErrStr s m from rfl,
            (reportErrStr_not_mem s m hm).2]
          simp
        · intro x hx
          rw [errStringsOf_cons_info]
          rcases List.mem_cons.mp hx with heq | htail
          · exact heq ▸ List.mem_cons_self m _
          · exact List.mem_cons_of_mem m (hsub x htail)

theorem runPass_cons (st : Settings) (co : Collab) (cond : FileEntry → Bool)
    (fc tfs : Nat) (f : FileEntry) (fs : List FileEntry) (acc : PassAcc) :
    runPass st co cond fc tfs (f :: fs) acc
      = runPass st co cond fc tfs fs
          (if cond f then checkOneFile st co fc tfs acc f else acc) := rfl

theorem runPass_events (st : Settings) (co : Collab) (cond : FileEntry → Bool)
    (fc tfs : Nat) (files : List FileEntry) (acc : PassAcc) :
    (runPass st co cond fc tfs files acc).events
      = acc.events ++ (files.filter cond).map (fun f => Event.checkFile f.path) := by
  induction files generalizing acc with
  | nil => simp [runPass]
  | cons f fs ih =>
    rw [runPass_cons]
    by_cases h : cond f
    · rw [if_pos h, ih]
      simp [checkOneFile, List.filter_cons, h]
    · rw [if_neg h, ih]
      simp [List.filter_cons, h]

theorem runPass_returnValue (st : Settings) (co : Collab) (cond : FileEntry → Bool)
    (fc tfs : Nat) (files : List FileEntry) (acc : PassAcc) :
    (runPass st co cond fc tfs files acc).returnValue
      = acc.returnValue
        + ((files.filter cond).map (fun f => co.checkDefects f.path)).sum := by
  induction files generalizing acc with
  | nil => simp [runPass]
  | cons f fs ih =>
    rw [runPass_cons]
    by_cases h : cond f
    · rw [if_pos h, ih]
      simp [checkOneFile, List.filter_cons, h]
      omega
    · rw [if_neg h, ih]
      simp [List.filter_cons, h]

theorem dispatch_events_seq (st : Settings) (lib : Library) (co : Collab)
    (files : List FileEntry) (hjobs : st.jobs = 1) :
    (dispatch st lib co files).events
      = (files.filter (firstPassCond lib)).map (fun f => Event.checkFile f.path)
        ++ (files.filter (secondPassCond lib)).map (fun f => Event.checkFile f.path)
        ++ [Event.functionUsage] := by
  unfold dispatch
  rw [if_pos hjobs]
  simp [runPass_events]

theorem dispatch_returnValue_seq (st : Settings) (lib : Library) (co : Collab)
    (files : List FileEntry) (hjobs : st.jobs = 1) :
    (dispatch st lib co files).returnValue
      = ((files.filter (firstPassCond lib)).map (fun f => co.checkDefects f.path)).sum
        + ((files.filter (secondPassCond lib)).map (fun f => co.checkDefects f.path)).sum := by
  unfold dispatch
  rw [if_pos hjobs]
  simp [runPass_returnValue]

theorem secondPassCond_eq_not_first (lib : Library) (f : FileEntry) :
    secondPassCond lib f = !(firstPassCond lib f) := by
  simp [firstPassCond, secondPassCond]

theorem filter_partition_perm (lib : Library) (files : List FileEntry) :
    List.Perm
      (files.filter (firstPassCond lib) ++ files.filter (secondPassCond lib))
      files := by
  have h : files.filter (secondPassCond lib)
      = files.filter (fun f => !(firstPassCond lib f)) :=
    List.filter_congr (fun f _ => secondPassCond_eq_not_first lib f)
  rw [h]
  exact List.filter_append_perm _ files

theorem header_ne_footer (v : Nat) : getXMLHeader v ≠ getXMLFooter v := by
  intro h
  have hl := congrArg String.length h
  rw [getXMLHeader, getXMLFooter, String.length_append, String.length_append] at hl
  have h1 : ("<?xml version=\"1.0\"?>\n<results version=\"" : String).length = 40 := by decide
  have h2 : ("\">" : String).length = 2 := by decide
  have h3 : ("</results>" : String).length = 10 := by decide
  rw [h1, h2, h3] at hl
  omega

/-- Core bracketing fact: running an error-channel header, then arbitrary sink
operations none of which reports the footer string, then the footer, yields an
error stream that starts with the header, ends with the footer, and repeats
neither in between. -/
theorem errStream_bracket (hdr ftr : String) (mids : List SinkOp)
    (hne : hdr ≠ ftr) (hftr : ftr ∉ errStringsOf mids) :
    ∃ mid, errStream (runOps initSink ([SinkOp.err hdr] ++ mids ++ [SinkOp.err ftr]))
        = hdr :: (mid ++ [ftr])
      ∧ hdr ∉ mid ∧ ftr ∉ mid ∧ (∀ m ∈ mid, m ∈ errStringsOf mids) := by
  have hs1 : runOps initSink [SinkOp.err hdr]
      = { errorList := [hdr], stream := [(Channel.err, hdr)] } := by
    simp [runOps, runOp, reportErrStr, initSink]
  have hwf1 : SinkWF (runOps initSink [SinkOp.err hdr]) :=
    sinkWF_runOps initSink [SinkOp.err hdr] sinkWF_init
  have he1 : errStream (runOps initSink [SinkOp.err hdr]) = [hdr] := by
    rw [hs1]
    simp [errStream]
  obtain ⟨mid, hmid, hsub⟩ :=
    errStream_runOps_extend mids (runOps initSink [SinkOp.err hdr])
  have hwf2 : SinkWF (runOps (runOps initSink [SinkOp.err hdr]) mids) :=
    sinkWF_runOps _ mids hwf1
  have he2 : errStream (runOps (runOps initSink [SinkOp.err hdr]) mids)
      = hdr :: mid := by
    rw [hmid, he1]
    rfl
  have hnodup : (hdr :: mid).Nodup := by
    have := hwf2.2
    rw [hwf2.1, he2] at this
    exact (List.nodup_reverse).mp this
  have hftr2 : ftr ∉ (runOps (runOps initSink [SinkOp.err hdr]) mids).errorList := by
    rw [hwf2.1, he2]
    intro hmem
    rcases List.mem_cons.mp (List.mem_reverse.mp hmem) with heq | htail
    · exact hne heq.symm
    · exact hftr (hsub ftr htail)
  refine ⟨mid, ?_, ?_, ?_, hsub⟩
  · rw [runOps_append, runOps_append,
      show runOps (runOps (runOps initSink [SinkOp.err hdr]) mids) [SinkOp.err ftr]
        = reportErrStr (runOps (runOps initSink [SinkOp.err hdr]) mids) ftr from rfl,
      (reportErrStr_not_mem _ ftr hftr2).2, he2]
    simp
  · exact (List.nodup_cons.mp hnodup).1
  · intro hmem
    exact hftr (hsub ftr hmem)

theorem check_internal_cfg_fields (st : Settings) (lib : Library) (co : Collab)
    (files : List FileEntry) (hcfg : cfgLoadOk st co = true) :
    (check_internal st lib co files).returnValue = (dispatch st lib co files).returnValue
    ∧ (check_internal st lib co files).retcode
        = (if (dispatch st lib co files).returnValue ≠ 0 then st.exitCode else 0)
    ∧ (check_internal st lib co files).events = (dispatch st lib co files).events
    ∧ (check_internal st lib co files).ops
        = (if st.xml then [SinkOp.err (getXMLHeader st.xmlVersion)] else [])
          ++ middleOps st lib co files
          ++ (if st.xml then [SinkOp.err (getXMLFooter st.xmlVersion)] else []) := by
  unfold check_internal
  rw [if_pos hcfg]
  exact ⟨rfl, rfl, rfl, rfl⟩

theorem checkedPaths_append (a b : List Event) :
    checkedPaths (a ++ b) = checkedPaths a ++ checkedPaths b := by
  simp [checkedPaths, List.filterMap_append]

theorem checkedPaths_map_checkFile (l : List FileEntry) :
    checkedPaths (l.map (fun f => Event.checkFile f.path))
      = l.map (fun f => f.path) := by
  induction l with
  | nil => rfl
  | cons f fs ih =>
    simp only [List.map_cons, checkedPaths, List.filterMap_cons] at ih ⊢
    rw [ih]

theorem count_functionUsage_map (l : List FileEntry) :
    (l.map (fun f => Event.checkFile f.path)).count Event.functionUsage = 0 := by
  rw [List.count_eq_zero]
  intro h
  obtain ⟨f, _, hf⟩ := List.mem_map.mp h
  simp at hf

/-! # Claim theorems -/

/-- C1 (code bug): with FileSet set to foo.h and the exclusion rule foo.h, the
combined header-exclusion warning is emitted, yet the targeted file does NOT
remain in the resulting FileSet and the run fails — the erase loop of lines
123-130 strips the rule from a discarded local copy while the PathMatch
matcher of line 142 is built from the original parser.GetIgnoredPaths(), so
the rule stays active.  The last two conjuncts show the stripped rule set the
code computes (and then forgets) is empty, under which the file would have
been kept. -/
theorem c1_header_rule_still_active :
    (parseFromArgsFilter [FileEntry.mk "foo.h" 1] ["foo.h"] true).warned = true
    ∧ (parseFromArgsFilter [FileEntry.mk "foo.h" 1] ["foo.h"] true).coutLines
        = [headerWarning1, headerWarning2, allIgnoredMsg]
    ∧ (parseFromArgsFilter [FileEntry.mk "foo.h" 1] ["foo.h"] true).files = []
    ∧ (parseFromArgsFilter [FileEntry.mk "foo.h" 1] ["foo.h"] true).success = false
    ∧ filterIgnoredHeaders ["foo.h"] = []
    ∧ [FileEntry.mk "foo.h" 1].filter
        (fun f => !(pathMatchAny (filterIgnoredHeaders ["foo.h"]) true f.path))
        = [FileEntry.mk "foo.h" 1] := by
  refine ⟨?_, ?_, ?_, ?_, ?_, ?_⟩ <;> decide

/-- C2: for every run whose baseline configuration loads and whose configured
error exit code is non-zero, the process exit status is non-zero iff the
aggregate defect count (returnValue) is non-zero; with zero defects the exit
status is zero; and in sequential mode the aggregate is exactly the sum of
the per-file defect counts over both passes. -/
theorem c2_exit_code_iff_defects (st : Settings) (lib : Library) (co : Collab)
    (files : List FileEntry) (hcfg : cfgLoadOk st co = true) (hexit : st.exitCode ≠ 0) :
    ((check_internal st lib co files).retcode ≠ 0
      ↔ (check_internal st lib co files).returnValue ≠ 0)
    ∧ ((check_internal st lib co files).returnValue = 0
      → (check_internal st lib co files).retcode = 0)
    ∧ (st.jobs = 1 →
        (check_internal st lib co files).returnValue
          = ((files.filter (firstPassCond lib)).map (fun f => co.checkDefects f.path)).sum
            + ((files.filter (secondPassCond lib)).map (fun f => co.checkDefects f.path)).sum) := by
  obtain ⟨hrv, hrc, _, _⟩ := check_internal_cfg_fields st lib co files hcfg
  refine ⟨?_, ?_, ?_⟩
  · rw [hrv, hrc]
    by_cases h : (dispatch st lib co files).returnValue = 0 <;> simp [h, hexit]
  · intro h
    rw [hrv] at h
    rw [hrc]
    simp [h]
  · intro hjobs
    rw [hrv]
    exact dispatch_returnValue_seq st lib co files hjobs

theorem c2_exit_code_iff_defects_witness :
    ((check_internal demoSettings demoLib demoCollab []).retcode ≠ 0
      ↔ (check_internal demoSettings demoLib demoCollab []).returnValue ≠ 0)
    ∧ ((check_internal demoSettings demoLib demoCollab []).returnValue = 0
      → (check_internal demoSettings demoLib demoCollab []).retcode = 0) :=
  ⟨(c2_exit_code_iff_defects demoSettings demoLib demoCollab [] (by decide) (by decide)).1,
   (c2_exit_code_iff_defects demoSettings demoLib demoCollab [] (by decide) (by decide)).2.1⟩

/-- C3 (code bug): the compiled print_stacktrace emits nothing — its whole
body, including the 32-address capture, the 3-frame skip and the demangling
fallback (print_stacktrace_body), sits behind the never-defined preprocessor
symbol USE_UNIX_SIGNAL_SUPPORT — so for a SIGSEGV (or any non-interrupt
fault) the handler's report consists of the fixed lines only, with no
call-trace reconstruction at all. -/
theorem c3_stacktrace_never_emitted :
    (∀ (demangle : String → Option String) (demangling : Bool)
        (symbolstrings : Option (List String)),
        print_stacktrace demangle demangling symbolstrings = [])
    ∧ (∀ (exceptionOutput sigtext detail : String)
        (demangle : String → Option String) (symbolstrings : Option (List String)),
        (CppcheckSignalHandler exceptionOutput Signo.sigsegv sigtext detail demangle
            symbolstrings).2
          = ["Internal error: cppcheck received signal ", "SIGSEGV", ", ", sigtext, detail,
             "Please report this to the cppcheck developers!"]) := by
  constructor
  · intro demangle demangling symbolstrings
    simp [print_stacktrace, USE_UNIX_SIGNAL_SUPPORT]
  · intro exceptionOutput sigtext detail demangle symbolstrings
    simp [CppcheckSignalHandler, signal_name, print_stacktrace, USE_UNIX_SIGNAL_SUPPORT]

/-- C4: in sequential mode the dispatcher checks exactly the first-loop files
(non-markup, or markup without the process-after-code preference) in FileSet
order, then the second-loop files (markup with the preference) in FileSet
order, each file exactly once (the checked paths are a permutation of the
FileSet's paths), and performs the checkFunctionUsage post-pass exactly once,
after all files. -/
theorem c4_sequential_two_pass (st : Settings) (lib : Library) (co : Collab)
    (files : List FileEntry) (hjobs : st.jobs = 1) (hcfg : cfgLoadOk st co = true) :
    (check_internal st lib co files).events
      = (files.filter (firstPassCond lib)).map (fun f => Event.checkFile f.path)
        ++ (files.filter (secondPassCond lib)).map (fun f => Event.checkFile f.path)
        ++ [Event.functionUsage]
    ∧ List.Perm (checkedPaths (check_internal st lib co files).events)
        (files.map (fun f => f.path))
    ∧ (check_internal st lib co files).events.count Event.functionUsage = 1 := by
  obtain ⟨_, _, hev0, _⟩ := check_internal_cfg_fields st lib co files hcfg
  have hev : (check_internal st lib co files).events
      = (files.filter (firstPassCond lib)).map (fun f => Event.checkFile f.path)
        ++ (files.filter (secondPassCond lib)).map (fun f => Event.checkFile f.path)
        ++ [Event.functionUsage] := by
    rw [hev0]
    exact dispatch_events_seq st lib co files hjobs
  refine ⟨hev, ?_, ?_⟩
  · rw [hev, checkedPaths_append, checkedPaths_append,
      checkedPaths_map_checkFile, checkedPaths_map_checkFile]
    have hfu : checkedPaths [Event.functionUsage] = [] := rfl
    rw [hfu, List.append_nil, ← List.map_append]
    exact List.Perm.map _ (filter_partition_perm lib files)
  · rw [hev]
    simp [List.count_append, count_functionUsage_map]

theorem c4_sequential_two_pass_witness :
    (check_internal demoSettings demoLib demoCollab [FileEntry.mk "a.c" 1]).events
      = ([FileEntry.mk "a.c" 1].filter (firstPassCond demoLib)).map
          (fun f => Event.checkFile f.path)
        ++ ([FileEntry.mk "a.c" 1].filter (secondPassCond demoLib)).map
          (fun f => Event.checkFile f.path)
        ++ [Event.functionUsage]
    ∧ List.Perm
        (checkedPaths (check_internal demoSettings demoLib demoCollab
          [FileEntry.mk "a.c" 1]).events)
        ([FileEntry.mk "a.c" 1].map (fun f => f.path))
    ∧ (check_internal demoSettings demoLib demoCollab
        [FileEntry.mk "a.c" 1]).events.count Event.functionUsage = 1 :=
  c4_sequential_two_pass demoSettings demoLib demoCollab [FileEntry.mk "a.c" 1]
    rfl (by decide)

/-- C5: the error channel deduplicates on the fully rendered string — across
any emission sequence no string is written to std::cerr twice, every reported
string does appear (exactly once, by the first two conjuncts), a message
already in the SeenSet leaves the sink untouched, and two diagnostics with
different rendered texts each produce a write. -/
theorem c5_error_channel_dedup :
    (∀ ops : List SinkOp, (errStream (runOps initSink ops)).Nodup)
    ∧ (∀ (ops : List SinkOp) (m : String),
        m ∈ errStringsOf ops → m ∈ errStream (runOps initSink ops))
    ∧ (∀ (s : SinkState) (m : String), m ∈ s.errorList → reportErrStr s m = s)
    ∧ (∀ a b : String, a ≠ b →
        errStream (runOps initSink [SinkOp.err a, SinkOp.err b]) = [a, b]) := by
  refine ⟨?_, ?_, ?_, ?_⟩
  · intro ops
    have hwf := sinkWF_runOps initSink ops sinkWF_init
    have h2 := hwf.2
    rw [hwf.1] at h2
    exact List.nodup_reverse.mp h2
  · intro ops m hm
    have h1 := errStrings_mem_errorList ops initSink m hm
    rw [(sinkWF_runOps initSink ops sinkWF_init).1] at h1
    exact List.mem_reverse.mp h1
  · exact reportErrStr_mem
  · intro a b hab
    have h1 : a ∉ initSink.errorList := by simp [initSink]
    have h2 : b ∉ (reportErrStr initSink a).errorList := by
      rw [(reportErrStr_not_mem initSink a h1).1]
      simpa [initSink] using Ne.symm hab
    have hrun : runOps initSink [SinkOp.err a, SinkOp.err b]
        = reportErrStr (reportErrStr initSink a) b := rfl
    rw [hrun, (reportErrStr_not_mem _ b h2).2, (reportErrStr_not_mem _ a h1).2]
    simp [initSink, errStream]

theorem c5_error_channel_dedup_witness :
    (errStream (runOps initSink [SinkOp.err "e1", SinkOp.err "e1"])).Nodup
    ∧ errStream (runOps initSink [SinkOp.err "e1", SinkOp.err "e2"]) = ["e1", "e2"] :=
  ⟨c5_error_channel_dedup.1 [SinkOp.err "e1", SinkOp.err "e1"],
   c5_error_channel_dedup.2.2.2 "e1" "e2" (by decide)⟩

/-- C6 counterexample: the claim covers "informational reports" (reportInfo),
but reportInfo forwards to reportErr (lines 726-729), which consults the
SeenSet — emitting the same informational message twice produces one write,
not two. -/
theorem c6_info_report_deduplicated :
    errStream (runOps initSink [SinkOp.info "m", SinkOp.info "m"]) = ["m"]
    ∧ (runOps initSink [SinkOp.info "m", SinkOp.info "m"]).stream.length = 1 := by
  constructor <;> decide

/-- C6 (amended): messages routed through reportOut (progress and multi-file
status lines) are written unconditionally — reportOut never consults or
changes the SeenSet, and the same status text emitted twice produces two
writes — whereas reportInfo forwards its message to the deduplicated
reportErr channel. -/
theorem c6_reportOut_never_deduplicated :
    (∀ (s : SinkState) (m : String),
        (reportOutStr s m).stream = s.stream ++ [(Channel.out, m)]
        ∧ (reportOutStr s m).errorList = s.errorList)
    ∧ (∀ m : String, outStream (runOps initSink [SinkOp.out m, SinkOp.out m]) = [m, m])
    ∧ (∀ (s : SinkState) (m : String), runOp s (SinkOp.info m) = reportErrStr s m) := by
  refine ⟨?_, ?_, ?_⟩
  · intro s m
    exact ⟨rfl, rfl⟩
  · intro m
    have hrun : runOps initSink [SinkOp.out m, SinkOp.out m]
        = reportOutStr (reportOutStr initSink m) m := rfl
    rw [hrun]
    simp [outStream, reportOutStr, initSink, List.filterMap_append]
  · intro s m
    rfl

/-- C7: in structured (XML) mode, when the baseline configuration loads and
no collaborator emission collides with the footer string, the error channel
carries exactly one header (first) and exactly one footer (last), bracketing
every other error-channel write, even when nothing is emitted in between. -/
theorem c7_xml_header_footer_bracket (st : Settings) (lib : Library) (co : Collab)
    (files : List FileEntry) (hcfg : cfgLoadOk st co = true) (hxml : st.xml = true)
    (hftr : getXMLFooter st.xmlVersion ∉ errStringsOf (middleOps st lib co files)) :
    ∃ mid, errStream (runOps initSink (check_internal st lib co files).ops)
        = getXMLHeader st.xmlVersion :: (mid ++ [getXMLFooter st.xmlVersion])
      ∧ getXMLHeader st.xmlVersion ∉ mid ∧ getXMLFooter st.xmlVersion ∉ mid := by
  obtain ⟨_, _, _, hops⟩ := check_internal_cfg_fields st lib co files hcfg
  have hops2 : (check_internal st lib co files).ops
      = [SinkOp.err (getXMLHeader st.xmlVersion)] ++ middleOps st lib co files
        ++ [SinkOp.err (getXMLFooter st.xmlVersion)] := by
    rw [hops, hxml]
    simp
  rw [hops2]
  obtain ⟨mid, h1, h2, h3, _⟩ :=
    errStream_bracket (getXMLHeader st.xmlVersion) (getXMLFooter st.xmlVersion)
      (middleOps st lib co files) (header_ne_footer st.xmlVersion) hftr
  exact ⟨mid, h1, h2, h3⟩

theorem c7_xml_header_footer_bracket_witness :
    ∃ mid, errStream (runOps initSink (check_internal xmlSettings demoLib demoCollab []).ops)
        = getXMLHeader xmlSettings.xmlVersion :: (mid ++ [getXMLFooter xmlSettings.xmlVersion])
      ∧ getXMLHeader xmlSettings.xmlVersion ∉ mid
      ∧ getXMLFooter xmlSettings.xmlVersion ∉ mid :=
  c7_xml_header_footer_bracket xmlSettings demoLib demoCollab [] (by decide) rfl (by decide)

/-- C8: when more than one worker is requested but the platform's thread
executor is not enabled, the dispatcher analyzes nothing (no checkFile and no
threadRun events), keeps the aggregate defect count at zero, returns exit
status zero, and emits the informational std::cout message. -/
theorem c8_no_thread_support (st : Settings) (lib : Library) (co : Collab)
    (files : List FileEntry) (hcfg : cfgLoadOk st co = true)
    (hjobs : 1 < st.jobs) (hth : co.threadEnabled = false) :
    (check_internal st lib co files).returnValue = 0
    ∧ (check_internal st lib co files).retcode = 0
    ∧ (check_internal st lib co files).events = []
    ∧ SinkOp.out noThreadMsg ∈ (check_internal st lib co files).ops := by
  have hj : ¬(st.jobs = 1) := by omega
  have hd : dispatch st lib co files
      = { returnValue := 0, ops := [SinkOp.out noThreadMsg], events := [] } := by
    unfold dispatch
    rw [if_neg hj, hth]
    simp
  obtain ⟨hrv, hrc, hev, hops⟩ := check_internal_cfg_fields st lib co files hcfg
  refine ⟨?_, ?_, ?_, ?_⟩
  · rw [hrv, hd]
  · rw [hrc, hd]
    simp
  · rw [hev, hd]
  · rw [hops]
    simp [middleOps, hd]

theorem c8_no_thread_support_witness :
    (check_internal parSettings demoLib demoCollab []).returnValue = 0
    ∧ (check_internal parSettings demoLib demoCollab []).retcode = 0
    ∧ (check_internal parSettings demoLib demoCollab []).events = []
    ∧ SinkOp.out noThreadMsg ∈ (check_internal parSettings demoLib demoCollab []).ops :=
  c8_no_thread_support parSettings demoLib demoCollab [] (by decide) (by decide) (by decide)

/-- C9: fault reports go to stderr exactly when the process-wide exception
output string equals "stderr"; in every other state — including the
default-constructed empty string — they go to stdout. -/
theorem c9_fault_report_destination :
    (∀ s : String, faultReportSink s = FaultSink.toStderr ↔ s = "stderr")
    ∧ faultReportSink exceptionOutputDefault = FaultSink.toStdout := by
  constructor
  · intro s
    unfold faultReportSink
    by_cases h : s = "stderr" <;> simp [h]
  · decide

theorem c9_fault_report_destination_witness :
    faultReportSink "stderr" = FaultSink.toStderr
    ∧ faultReportSink exceptionOutputDefault = FaultSink.toStdout :=
  ⟨(c9_fault_report_destination.1 "stderr").mpr rfl, c9_fault_report_destination.2⟩

/-- C10: reportStatus's completion percentage divides only behind the
sizetotal > 0 guard (so the checked division always succeeds), reports 0 when
sizetotal is zero, computes sizedone*100/sizetotal otherwise, and the status
line is emitted exactly when the FileSet has more than one entry. -/
theorem c10_status_percent_guarded :
    (∀ sizedone sizetotal : Nat, (statusPercent sizedone sizetotal).isSome = true)
    ∧ (∀ sizedone : Nat, statusPercent sizedone 0 = some 0)
    ∧ (∀ sizedone sizetotal : Nat, 0 < sizetotal →
        statusPercent sizedone sizetotal = some (sizedone * 100 / sizetotal))
    ∧ (∀ fileindex filecount sizedone sizetotal : Nat, filecount ≤ 1 →
        reportStatus fileindex filecount sizedone sizetotal = [])
    ∧ (∀ fileindex filecount sizedone sizetotal : Nat, 1 < filecount →
        reportStatus fileindex filecount sizedone sizetotal
          = [SinkOp.out (statusLine fileindex filecount sizedone sizetotal)]) := by
  refine ⟨?_, ?_, ?_, ?_, ?_⟩
  · intro sizedone sizetotal
    unfold statusPercent checkedDiv
    split
    · rw [if_neg (by omega)]
      rfl
    · rfl
  · intro sizedone
    simp [statusPercent]
  · intro sizedone sizetotal h
    rw [statusPercent, if_pos h, checkedDiv, if_neg (by omega)]
  · intro fileindex filecount sizedone sizetotal h
    rw [reportStatus, if_neg (by omega)]
  · intro fileindex filecount sizedone sizetotal h
    rw [reportStatus, if_pos h]

theorem c10_status_percent_guarded_witness :
    statusPercent 7 0 = some 0
    ∧ reportStatus 1 1 7 0 = []
    ∧ statusPercent 50 200 = some 25
    ∧ reportStatus 1 2 50 200 = [SinkOp.out (statusLine 1 2 50 200)] :=
  ⟨c10_status_percent_guarded.2.1 7,
   c10_status_percent_guarded.2.2.2.1 1 1 7 0 (by decide),
   by rw [c10_status_percent_guarded.2.2.1 50 200 (by decide)],
   c10_status_percent_guarded.2.2.2.2 1 2 50 200 (by decide)⟩

end Cppcheck
